import Mathlib

/-! Shallow embedding of the sigma-scraper core (src/main.py): the per-URL
fetch-render-extract-classify loop `extract_contact_iframe`, the session
manager `create_session`, and the sequential orchestrator `run_sequentially`.

External effects (HTTP GET, JavaScript render, HTML parsing) are modelled by
an environment function that, for each attempt index and session handle,
either delivers the parsed DOM tree of the rendered page or raises one of the
two exception classes the source distinguishes: a
`requests.exceptions.RequestException` (transport error) or any other
`Exception`, carried with its message string.  Session handles are natural
numbers; `create_session` hands out fresh ones from a counter (the source
closes the previous handle first inside a try/except that swallows all close
failures, which has no effect on the abstract state).  Sleeps are timing
only and have no effect on the abstract state.
-/

/-- DOM tree produced by the lxml function `etree.HTML`: an element with a tag, an
attribute list and children, or a text node.  The parser always returns a
document rooted at an `html` element, so the root is never a `noscript`. -/
inductive Node where
  | elem : String → List (String × String) → List Node → Node
  | text : String → Node

/-- Test whether the character list `pat` occurs at the head of the second list. -/
def leadMatch : List Char → List Char → Bool
  | [], _ => true
  | _ :: _, [] => false
  | c :: cs, d :: ds => c = d && leadMatch cs ds

/-- Test whether `pat` occurs contiguously anywhere in the list. -/
def subMatch (pat : List Char) : List Char → Bool
  | [] => pat.isEmpty
  | d :: ds => leadMatch pat (d :: ds) || subMatch pat ds

/-- The case-sensitive substring test of Python, `pat in s`. -/
def strContains (s pat : String) : Bool :=
  subMatch pat.toList s.toList

/-- The fixed qualifying substring of src/main.py line 59. -/
def qualifier : String := "contact.sigma-rh.com"

/-- lxml attribute lookup `iframe.get(k)`: first binding of the key, if any. -/
def lookupAttr (attrs : List (String × String)) (k : String) : Option String :=
  match attrs.find? (fun p => p.1 = k) with
  | some p => some p.2
  | none => none

/-- Whether a node is a `noscript` element. -/
def isNoscript : Node → Bool
  | .elem t _ _ => t = "noscript"
  | .text _ => false

mutual
/-- Removal of every `noscript` element (with its subtree) below the given
node, the effect of the source loop that removes every node returned by the
xpath query `//noscript` from its parent, applied to a document root (the root itself,
an `html` element, is never removed). -/
def stripNoscript : Node → Node
  | .text s => .text s
  | .elem t a cs => .elem t a (stripNoscriptList cs)

/-- Removal of every `noscript` element from a list of sibling subtrees. -/
def stripNoscriptList : List Node → List Node
  | [] => []
  | n :: rest =>
    if isNoscript n then stripNoscriptList rest
    else stripNoscript n :: stripNoscriptList rest
end

mutual
/-- The xpath query `//iframe[@src]`: every descendant-or-self element with
tag `iframe` carrying a `src` attribute, in document order. -/
def collectIframes : Node → List Node
  | .text _ => []
  | .elem t a cs =>
    (if t = "iframe" && (lookupAttr a "src").isSome then [Node.elem t a cs] else [])
      ++ collectIframesList cs

/-- `//iframe[@src]` over a list of sibling subtrees. -/
def collectIframesList : List Node → List Node
  | [] => []
  | n :: rest => collectIframes n ++ collectIframesList rest
end

mutual
/-- The iframes of a tree that lie outside every `noscript` subtree: the
search skips `noscript` elements entirely.  Stated from the notion used by
the spec of
an iframe `nested only inside noscript`; compared below with what the code
computes after stripping. -/
def iframesOutsideNoscript : Node → List Node
  | .text _ => []
  | .elem t a cs =>
    if t = "noscript" then []
    else
      (if t = "iframe" && (lookupAttr a "src").isSome then [Node.elem t a cs] else [])
        ++ iframesOutsideNoscriptList cs

/-- `iframesOutsideNoscript` over a list of sibling subtrees. -/
def iframesOutsideNoscriptList : List Node → List Node
  | [] => []
  | n :: rest => iframesOutsideNoscript n ++ iframesOutsideNoscriptList rest
end

mutual
/-- Serialization of a node back to markup, the model of
`etree.tostring(iframe, encoding="unicode")`. -/
def serialize : Node → String
  | .text s => s
  | .elem t a cs =>
    "<" ++ t ++ serializeAttrs a ++ ">" ++ serializeList cs ++ "</" ++ t ++ ">"

/-- Serialization of an attribute list. -/
def serializeAttrs : List (String × String) → String
  | [] => ""
  | (k, v) :: rest => " " ++ k ++ "=\"" ++ v ++ "\"" ++ serializeAttrs rest

/-- Serialization of a list of children. -/
def serializeList : List Node → String
  | [] => ""
  | n :: rest => serialize n ++ serializeList rest
end

/-- One extracted iframe row, src/main.py lines 60-64. -/
structure IframeRecord where
  page_url : String
  src_url : String
  iframe_html : String
deriving Repr, DecidableEq

/-- The record-building loop of src/main.py lines 57-64: for each element of
the `//iframe[@src]` result, read its `src` attribute and keep a record when
the qualifying substring occurs in it. -/
def buildRecords (url : String) : List Node → List IframeRecord
  | [] => []
  | n :: rest =>
    let src := (match n with | .elem _ a _ => (lookupAttr a "src").getD "" | .text _ => "")
    if strContains src qualifier then
      { page_url := url, src_url := src, iframe_html := serialize n } :: buildRecords url rest
    else
      buildRecords url rest

/-- The whole per-attempt extraction pipeline of src/main.py lines 48-64:
parse (already done by the environment), strip `noscript`, query
`//iframe[@src]`, filter by the qualifying substring. -/
def extractFrom (url : String) (h : Node) : List IframeRecord :=
  buildRecords url (collectIframes (stripNoscript h))

/-- What one fetch-render attempt does: deliver a parsed rendered tree, raise
a `requests.exceptions.RequestException`, or raise any other `Exception`
carrying the given message string. -/
inductive AttemptOutcome where
  | ok : Node → AttemptOutcome
  | requestError : String → AttemptOutcome
  | otherError : String → AttemptOutcome

/-- Whether the attempt raised (either exception class). -/
def AttemptOutcome.isErr : AttemptOutcome → Bool
  | .ok _ => false
  | .requestError _ => true
  | .otherError _ => true

/-- The session-invalid test of src/main.py line 83:
`"Session is closed" in str(e) or "RuntimeError" in str(e)`. -/
def sessionBad (msg : String) : Bool :=
  strContains msg "Session is closed" || strContains msg "RuntimeError"

/-- The module-level mutable state of src/main.py: the global `session`
handle (with the counter that makes recreated handles fresh) and the two
accumulator buckets touched by `extract_contact_iframe`. -/
structure ScraperState where
  session : Option Nat
  nextId : Nat
  failed_urls : List String
  no_iframe_urls : List String
deriving Repr, DecidableEq

/-- `create_session` of src/main.py lines 18-27: close the previous handle if
any (failures swallowed, no effect on the abstract state), install a fresh
handle and return it. -/
def create_session (st : ScraperState) : Nat × ScraperState :=
  (st.nextId, { st with session := some st.nextId, nextId := st.nextId + 1 })

/-- The attempt loop of `extract_contact_iframe`, src/main.py lines 37-91.
`rem` counts the remaining iterations of `for attempt in range(retries)` and
`a` is the current value of `attempt`; the third result component is the
trace of executed attempts, each recording the session handle it used and
its outcome.  Branches follow the source: a successful render returns the
extracted records if nonempty, otherwise logs the URL into
`no_iframe_urls` and returns `None`; a `RequestException` sleeps and
retries; any other exception recreates the session when its message matches
the session-invalid pattern, and otherwise, on the final attempt only,
appends the URL to `failed_urls`. -/
def extractLoop (url : String) (retries : Nat) (env : Nat → Nat → AttemptOutcome) :
    Nat → Nat → ScraperState → List (Nat × AttemptOutcome) →
    Option (List IframeRecord) × ScraperState × List (Nat × AttemptOutcome)
  | 0, _, st, tr => (none, st, tr)
  | rem + 1, a, st, tr =>
    let st1 := if st.session = none then (create_session st).2 else st
    let sid := st1.session.getD 0
    match env a sid with
    | .ok h =>
      let recs := extractFrom url h
      if recs.isEmpty then
        (none, { st1 with no_iframe_urls := st1.no_iframe_urls ++ [url] },
          tr ++ [(sid, .ok h)])
      else
        (some recs, st1, tr ++ [(sid, .ok h)])
    | .requestError m =>
      extractLoop url retries env rem (a + 1) st1 (tr ++ [(sid, .requestError m)])
    | .otherError m =>
      let st2 :=
        if sessionBad m then (create_session st1).2
        else if a = retries - 1 then { st1 with failed_urls := st1.failed_urls ++ [url] }
        else st1
      extractLoop url retries env rem (a + 1) st2 (tr ++ [(sid, .otherError m)])

/-- `extract_contact_iframe(url, retries)` of src/main.py lines 33-91, run
against an environment that scripts the outcome of each attempt. -/
def extract_contact_iframe (url : String) (retries : Nat)
    (env : Nat → Nat → AttemptOutcome) (st : ScraperState) :
    Option (List IframeRecord) × ScraperState × List (Nat × AttemptOutcome) :=
  extractLoop url retries env retries 0 st []

/-- The three outcome variants of the `PageResult` of the spec. -/
inductive PageResult where
  | Matched : List IframeRecord → PageResult
  | NoMatch : PageResult
  | Failed : PageResult
deriving Repr, DecidableEq

/-- Classification of one `extract_contact_iframe` call as a `PageResult`: a
returned record list is `Matched`; a `None` return is `NoMatch` exactly when
the call logged the URL into `no_iframe_urls` (the clean negative of
src/main.py lines 70-73) and `Failed` otherwise (retries exhausted). -/
def process (url : String) (retries : Nat) (env : Nat → Nat → AttemptOutcome)
    (st : ScraperState) :
    PageResult × ScraperState × List (Nat × AttemptOutcome) :=
  match extract_contact_iframe url retries env st with
  | (some recs, st1, tr) => (.Matched recs, st1, tr)
  | (none, st1, tr) =>
    if st1.no_iframe_urls = st.no_iframe_urls then (.Failed, st1, tr)
    else (.NoMatch, st1, tr)

/-- The per-URL loop of `run_sequentially`, src/main.py lines 110-113: each
URL is fed to `extract_contact_iframe` with the default budget of 3, a
non-`None` return extends `results`, and the trace records each processed
URL with its return value in order. -/
def runLoop (env : String → Nat → Nat → AttemptOutcome) :
    List String → ScraperState → List IframeRecord →
    List (String × Option (List IframeRecord)) →
    ScraperState × List IframeRecord × List (String × Option (List IframeRecord))
  | [], st, rs, tr => (st, rs, tr)
  | url :: rest, st, rs, tr =>
    match extract_contact_iframe url 3 (env url) st with
    | (ret, st1, _) =>
      runLoop env rest st1 (match ret with | some l => rs ++ l | none => rs)
        (tr ++ [(url, ret)])

/-- `run_sequentially(urls)` of src/main.py lines 105-115: create the session
once, then process the URLs strictly in order (the final `session.close()`
does not change the abstract state). -/
def run_sequentially (urls : List String) (env : String → Nat → Nat → AttemptOutcome)
    (st : ScraperState) (rs : List IframeRecord) :
    ScraperState × List IframeRecord × List (String × Option (List IframeRecord)) :=
  runLoop env urls (create_session st).2 rs []

/-- The element appended to `failed_urls` by a run whose final executed
attempt had the given outcome. -/
def failDelta (url : String) : Option (Nat × AttemptOutcome) → List String
  | some (_, .otherError m) => if sessionBad m then [] else [url]
  | _ => []

/-- A rendered page whose only iframe has a src differing from the
qualifying substring solely in letter case. -/
def caseVariantPage : Node :=
  .elem "html" [] [.elem "body" []
    [.elem "iframe" [("src", "https://Contact.Sigma-RH.com/x")] []]]

/-- The same page with the src in the exact (lowercase) qualifying case. -/
def exactCasePage : Node :=
  .elem "html" [] [.elem "body" []
    [.elem "iframe" [("src", "https://contact.sigma-rh.com/x")] []]]

/-- The noscript example page of the spec: an iframe with a qualifying src that
occurs only inside a `noscript` element. -/
def noscriptOnlyPage : Node :=
  .elem "html" [] [.elem "noscript" []
    [.elem "iframe" [("src", "https://contact.sigma-rh.com/x")] []]]

/-! Helper lemmas about the extraction pipeline. -/

theorem buildRecords_src_mem (url : String) :
    ∀ ns : List Node, ∀ r ∈ buildRecords url ns, strContains r.src_url qualifier = true := by
  intro ns
  induction ns with
  | nil => intro r hr; simp [buildRecords] at hr
  | cons n rest ih =>
    intro r hr
    simp only [buildRecords] at hr
    split at hr
    · rcases List.mem_cons.mp hr with h | h
      · subst h; assumption
      · exact ih r h
    · exact ih r hr

theorem buildRecords_page_mem (url : String) :
    ∀ ns : List Node, ∀ r ∈ buildRecords url ns, r.page_url = url := by
  intro ns
  induction ns with
  | nil => intro r hr; simp [buildRecords] at hr
  | cons n rest ih =>
    intro r hr
    simp only [buildRecords] at hr
    split at hr
    · rcases List.mem_cons.mp hr with h | h
      · subst h; rfl
      · exact ih r h
    · exact ih r hr

mutual
theorem collect_strip_nil (n : Node) (hn : isNoscript n = false)
    (h : iframesOutsideNoscript n = []) :
    collectIframes (stripNoscript n) = [] := by
  cases n with
  | text s => simp [stripNoscript, collectIframes]
  | elem t a cs =>
    have ht : ¬ t = "noscript" := by
      simpa [isNoscript, decide_eq_false_iff_not] using hn
    rw [iframesOutsideNoscript, if_neg ht] at h
    rcases List.append_eq_nil.mp h with ⟨h1, h2⟩
    rw [stripNoscript, collectIframes]
    have hguard : (if t = "iframe" && (lookupAttr a "src").isSome
        then [Node.elem t a cs] else []) = [] := h1
    have hguard2 : (t = "iframe" && (lookupAttr a "src").isSome) = false := by
      by_contra hc
      rw [Bool.not_eq_false] at hc
      rw [if_pos hc] at hguard
      simp at hguard
    rw [hguard2]
    simpa using collect_strip_nil_list cs h2

theorem collect_strip_nil_list (l : List Node)
    (h : iframesOutsideNoscriptList l = []) :
    collectIframesList (stripNoscriptList l) = [] := by
  cases l with
  | nil => simp [stripNoscriptList, collectIframesList]
  | cons n rest =>
    rw [iframesOutsideNoscriptList] at h
    rcases List.append_eq_nil.mp h with ⟨h1, h2⟩
    rw [stripNoscriptList]
    by_cases hn : isNoscript n = true
    · rw [if_pos hn]
      exact collect_strip_nil_list rest h2
    · rw [Bool.not_eq_true] at hn
      rw [if_neg (by simp [hn])]
      rw [collectIframesList]
      rw [collect_strip_nil n hn h1, collect_strip_nil_list rest h2]
      rfl
end

/-! Helper lemmas about the attempt loop. -/

@[simp] theorem create_session_no_iframe (st : ScraperState) :
    ((create_session st).2).no_iframe_urls = st.no_iframe_urls := rfl

@[simp] theorem create_session_failed (st : ScraperState) :
    ((create_session st).2).failed_urls = st.failed_urls := rfl

@[simp] theorem create_session_session (st : ScraperState) :
    ((create_session st).2).session = some st.nextId := rfl

@[simp] theorem create_session_nextId (st : ScraperState) :
    ((create_session st).2).nextId = st.nextId + 1 := rfl

@[simp] theorem stInit_no_iframe (st : ScraperState) :
    (if st.session = none then (create_session st).2 else st).no_iframe_urls
      = st.no_iframe_urls := by
  split <;> rfl

@[simp] theorem stInit_failed (st : ScraperState) :
    (if st.session = none then (create_session st).2 else st).failed_urls
      = st.failed_urls := by
  split <;> rfl

theorem stInit_of_some (st : ScraperState) (s : Nat) (hs : st.session = some s) :
    (if st.session = none then (create_session st).2 else st) = st := by
  rw [hs]
  simp

theorem extractLoop_session_frame (url : String) (retries : Nat)
    (env : Nat → Nat → AttemptOutcome)
    (henv : ∀ i sid m, env i sid = .otherError m → sessionBad m = false) :
    ∀ rem a st tr s, st.session = some s →
      (extractLoop url retries env rem a st tr).2.1.session = some s ∧
      (extractLoop url retries env rem a st tr).2.1.nextId = st.nextId := by
  intro rem
  induction rem with
  | zero => intro a st tr s hs; simp [extractLoop, hs]
  | succ rem ih =>
    intro a st tr s hs
    simp only [extractLoop, hs, Option.some_ne_none, if_false, ite_false,
      reduceCtorEq, Option.getD_some]
    cases hE : env a s with
    | ok h =>
      simp only [hE]
      split <;> simp [hs]
    | requestError m =>
      simp only [hE]
      exact ih (a + 1) st _ s hs
    | otherError m =>
      simp only [hE, henv a s m hE, Bool.false_eq_true, if_false]
      split
      · exact ih (a + 1) _ _ s (by simp)
      · exact ih (a + 1) st _ s hs

theorem extractLoop_buckets (url : String) (retries : Nat)
    (env : Nat → Nat → AttemptOutcome) :
    ∀ rem a st tr res st1 tr1, a + rem ≤ retries →
      extractLoop url retries env rem a st tr = (res, st1, tr1) →
      (st1.no_iframe_urls = st.no_iframe_urls ∧ st1.failed_urls = st.failed_urls) ∨
      (st1.no_iframe_urls = st.no_iframe_urls ++ [url] ∧
        st1.failed_urls = st.failed_urls ∧ res = none) ∨
      (st1.no_iframe_urls = st.no_iframe_urls ∧
        st1.failed_urls = st.failed_urls ++ [url] ∧ res = none) := by
  intro rem
  induction rem with
  | zero =>
    intro a st tr res st1 tr1 _ heq
    simp only [extractLoop, Prod.mk.injEq] at heq
    obtain ⟨h1, h2, h3⟩ := heq
    subst h2
    left
    exact ⟨rfl, rfl⟩
  | succ rem ih =>
    intro a st tr res st1 tr1 hle heq
    simp only [extractLoop] at heq
    cases hE : env a ((if st.session = none then (create_session st).2 else st).session.getD 0) with
    | ok h =>
      simp only [hE] at heq
      split at heq
      · simp only [Prod.mk.injEq] at heq
        obtain ⟨h1, h2, h3⟩ := heq
        subst h2
        right; left
        exact ⟨by simp, by simp, h1.symm⟩
      · simp only [Prod.mk.injEq] at heq
        obtain ⟨h1, h2, h3⟩ := heq
        subst h2
        left
        exact ⟨by simp, by simp⟩
    | requestError m =>
      simp only [hE] at heq
      rcases ih (a + 1) _ _ res st1 tr1 (by omega) heq with h | h | h
      · left; exact ⟨by rw [h.1]; simp, by rw [h.2]; simp⟩
      · right; left; exact ⟨by rw [h.1]; simp, by rw [h.2.1]; simp, h.2.2⟩
      · right; right; exact ⟨by rw [h.1]; simp, by rw [h.2.1]; simp, h.2.2⟩
    | otherError m =>
      simp only [hE] at heq
      by_cases hbad : sessionBad m = true
      · rw [if_pos hbad] at heq
        rcases ih (a + 1) _ _ res st1 tr1 (by omega) heq with h | h | h
        · left; exact ⟨by rw [h.1]; simp, by rw [h.2]; simp⟩
        · right; left; exact ⟨by rw [h.1]; simp, by rw [h.2.1]; simp, h.2.2⟩
        · right; right; exact ⟨by rw [h.1]; simp, by rw [h.2.1]; simp, h.2.2⟩
      · rw [if_neg hbad] at heq
        by_cases hlast : a = retries - 1
        · rw [if_pos hlast] at heq
          have hrem : rem = 0 := by omega
          subst hrem
          simp only [extractLoop, Prod.mk.injEq] at heq
          obtain ⟨h1, h2, h3⟩ := heq
          subst h2
          right; right
          exact ⟨by simp, by simp, h1.symm⟩
        · rw [if_neg hlast] at heq
          rcases ih (a + 1) _ _ res st1 tr1 (by omega) heq with h | h | h
          · left; exact ⟨by rw [h.1]; simp, by rw [h.2]; simp⟩
          · right; left; exact ⟨by rw [h.1]; simp, by rw [h.2.1]; simp, h.2.2⟩
          · right; right; exact ⟨by rw [h.1]; simp, by rw [h.2.1]; simp, h.2.2⟩

theorem extractLoop_allErr (url : String) (retries : Nat)
    (env : Nat → Nat → AttemptOutcome)
    (henv : ∀ i sid, i < retries → (env i sid).isErr = true) :
    ∀ rem a st tr, a + rem = retries →
      ∃ δ : List (Nat × AttemptOutcome),
        (extractLoop url retries env rem a st tr).1 = none ∧
        (extractLoop url retries env rem a st tr).2.2 = tr ++ δ ∧
        δ.length = rem ∧
        (extractLoop url retries env rem a st tr).2.1.no_iframe_urls = st.no_iframe_urls ∧
        (extractLoop url retries env rem a st tr).2.1.failed_urls =
          st.failed_urls ++ (if rem = 0 then [] else failDelta url δ.getLast?) := by
  intro rem
  induction rem with
  | zero =>
    intro a st tr _
    refine ⟨[], ?_, ?_, ?_, ?_, ?_⟩ <;> simp [extractLoop]
  | succ rem ih =>
    intro a st tr hsum
    have ha : a < retries := by omega
    simp only [extractLoop]
    cases hE : env a ((if st.session = none then (create_session st).2 else st).session.getD 0) with
    | ok h =>
      exfalso
      have hx := henv a ((if st.session = none then (create_session st).2 else st).session.getD 0) ha
      rw [hE] at hx
      simp [AttemptOutcome.isErr] at hx
    | requestError m =>
      simp only [hE]
      obtain ⟨δ, h1, h2, h3, h4, h5⟩ :=
        ih (a + 1) (if st.session = none then (create_session st).2 else st)
          (tr ++ [((if st.session = none then (create_session st).2 else st).session.getD 0,
            AttemptOutcome.requestError m)]) (by omega)
      refine ⟨((if st.session = none then (create_session st).2 else st).session.getD 0,
        AttemptOutcome.requestError m) :: δ, h1, ?_, by simp [h3], by rw [h4]; simp, ?_⟩
      · rw [h2, List.append_assoc]
        rfl
      · rw [h5, stInit_failed]
        rcases Nat.eq_zero_or_pos rem with hr | hr
        · subst hr
          have hδ : δ = [] := List.length_eq_zero.mp h3
          subst hδ
          simp [failDelta]
        · obtain ⟨y, δ', rfl⟩ : ∃ y δ', δ = y :: δ' := by
            cases δ with
            | nil => simp at h3; omega
            | cons y δ' => exact ⟨y, δ', rfl⟩
          rw [if_neg (by omega), if_neg (by omega), List.getLast?_cons_cons]
    | otherError m =>
      simp only [hE]
      by_cases hbad : sessionBad m = true
      · rw [if_pos hbad]
        obtain ⟨δ, h1, h2, h3, h4, h5⟩ :=
          ih (a + 1)
            (create_session (if st.session = none then (create_session st).2 else st)).2
            (tr ++ [((if st.session = none then (create_session st).2 else st).session.getD 0,
              AttemptOutcome.otherError m)]) (by omega)
        refine ⟨((if st.session = none then (create_session st).2 else st).session.getD 0,
          AttemptOutcome.otherError m) :: δ, h1, ?_, by simp [h3], by rw [h4]; simp, ?_⟩
        · rw [h2, List.append_assoc]
          rfl
        · rw [h5, create_session_failed, stInit_failed]
          rcases Nat.eq_zero_or_pos rem with hr | hr
          · subst hr
            have hδ : δ = [] := List.length_eq_zero.mp h3
            subst hδ
            simp [failDelta, hbad]
          · obtain ⟨y, δ', rfl⟩ : ∃ y δ', δ = y :: δ' := by
              cases δ with
              | nil => simp at h3; omega
              | cons y δ' => exact ⟨y, δ', rfl⟩
            rw [if_neg (by omega), if_neg (by omega), List.getLast?_cons_cons]
      · rw [if_neg hbad]
        by_cases hlast : a = retries - 1
        · rw [if_pos hlast]
          have hrem : rem = 0 := by omega
          subst hrem
          refine ⟨[((if st.session = none then (create_session st).2 else st).session.getD 0,
            AttemptOutcome.otherError m)], ?_, ?_, ?_, ?_, ?_⟩ <;>
            simp [extractLoop, failDelta, hbad]
        · rw [if_neg hlast]
          have hrem : 0 < rem := by omega
          obtain ⟨δ, h1, h2, h3, h4, h5⟩ :=
            ih (a + 1) (if st.session = none then (create_session st).2 else st)
              (tr ++ [((if st.session = none then (create_session st).2 else st).session.getD 0,
                AttemptOutcome.otherError m)]) (by omega)
          refine ⟨((if st.session = none then (create_session st).2 else st).session.getD 0,
            AttemptOutcome.otherError m) :: δ, h1, ?_, by simp [h3], by rw [h4]; simp, ?_⟩
          · rw [h2, List.append_assoc]
            rfl
          · rw [h5, stInit_failed]
            obtain ⟨y, δ', rfl⟩ : ∃ y δ', δ = y :: δ' := by
              cases δ with
              | nil => simp at h3; omega
              | cons y δ' => exact ⟨y, δ', rfl⟩
            rw [if_neg (by omega), if_neg (by omega), List.getLast?_cons_cons]

theorem extractLoop_matched_page (url : String) (retries : Nat)
    (env : Nat → Nat → AttemptOutcome) :
    ∀ rem a st tr l st1 tr1,
      extractLoop url retries env rem a st tr = (some l, st1, tr1) →
      ∀ r ∈ l, r.page_url = url := by
  intro rem
  induction rem with
  | zero =>
    intro a st tr l st1 tr1 heq
    simp [extractLoop] at heq
  | succ rem ih =>
    intro a st tr l st1 tr1 heq
    simp only [extractLoop] at heq
    cases hE : env a ((if st.session = none then (create_session st).2 else st).session.getD 0) with
    | ok h =>
      simp only [hE] at heq
      split at heq
      · simp at heq
      · simp only [Prod.mk.injEq, Option.some.injEq] at heq
        obtain ⟨h1, h2, h3⟩ := heq
        subst h1
        exact buildRecords_page_mem url _
    | requestError m =>
      simp only [hE] at heq
      exact ih (a + 1) _ _ l st1 tr1 heq
    | otherError m =>
      simp only [hE] at heq
      exact ih (a + 1) _ _ l st1 tr1 heq

theorem extract_first_ok (url : String) (retries : Nat)
    (env : Nat → Nat → AttemptOutcome) (st : ScraperState) (s : Nat) (h : Node)
    (hret : 0 < retries) (hs : st.session = some s) (hE : env 0 s = .ok h) :
    extract_contact_iframe url retries env st =
      if (extractFrom url h).isEmpty then
        (none, { st with no_iframe_urls := st.no_iframe_urls ++ [url] },
          [(s, AttemptOutcome.ok h)])
      else (some (extractFrom url h), st, [(s, AttemptOutcome.ok h)]) := by
  obtain ⟨rem, rfl⟩ : ∃ rem, retries = rem + 1 := ⟨retries - 1, by omega⟩
  unfold extract_contact_iframe
  simp only [extractLoop, hs, reduceCtorEq, if_false, ite_false, Option.getD_some, hE]
  by_cases hrec : (extractFrom url h).isEmpty = true
  · rw [if_pos hrec, if_pos hrec]
    simp [hs]
  · rw [if_neg hrec, if_neg hrec]
    simp [hs]

/-- C3: a URL whose rendered page yields at least one qualifying iframe on
the first attempt returns `Matched` immediately, with entries exactly the
iframes of the noscript-stripped tree whose `src` contains the qualifying
substring; exactly one attempt appears in the trace, the state is untouched,
and the `src_url` of every returned record contains the substring. -/
theorem c3_first_attempt_matched (url : String) (retries : Nat)
    (env : Nat → Nat → AttemptOutcome) (st : ScraperState) (s : Nat) (h : Node)
    (hret : 0 < retries) (hs : st.session = some s) (hE : env 0 s = .ok h)
    (hne : extractFrom url h ≠ []) :
    process url retries env st =
      (PageResult.Matched (buildRecords url (collectIframes (stripNoscript h))), st,
        [(s, AttemptOutcome.ok h)]) ∧
    ∀ r ∈ buildRecords url (collectIframes (stripNoscript h)),
      strContains r.src_url qualifier = true := by
  have hext := extract_first_ok url retries env st s h hret hs hE
  rw [if_neg (by simpa [List.isEmpty_iff] using hne)] at hext
  refine ⟨?_, buildRecords_src_mem url _⟩
  simp only [process, hext]
  rfl

/-- C3 witness. -/
theorem c3_first_attempt_matched_witness :
    process "u" 3 (fun _ _ => AttemptOutcome.ok exactCasePage)
        { session := some 0, nextId := 1, failed_urls := [], no_iframe_urls := [] } =
      (PageResult.Matched (buildRecords "u" (collectIframes (stripNoscript exactCasePage))),
        { session := some 0, nextId := 1, failed_urls := [], no_iframe_urls := [] },
        [(0, AttemptOutcome.ok exactCasePage)]) ∧
    ∀ r ∈ buildRecords "u" (collectIframes (stripNoscript exactCasePage)),
      strContains r.src_url qualifier = true :=
  c3_first_attempt_matched "u" 3 _ _ 0 exactCasePage (by decide) rfl rfl (by decide)

/-- C4: on a page whose iframes all sit inside `noscript` elements (none
outside), the `noscript` subtrees are removed before extraction and the call
returns `NoMatch` after a single attempt; in particular the example
page yields `NoMatch`, not `Matched` (see the witness). -/
theorem c4_noscript_only_nomatch (url : String) (retries : Nat)
    (env : Nat → Nat → AttemptOutcome) (st : ScraperState) (s : Nat) (h : Node)
    (hret : 0 < retries) (hs : st.session = some s) (hE : env 0 s = .ok h)
    (hroot : isNoscript h = false)
    (hout : iframesOutsideNoscript h = []) :
    process url retries env st =
      (PageResult.NoMatch, { st with no_iframe_urls := st.no_iframe_urls ++ [url] },
        [(s, AttemptOutcome.ok h)]) := by
  have hnil : extractFrom url h = [] := by
    unfold extractFrom
    rw [collect_strip_nil h hroot hout]
    rfl
  have hext := extract_first_ok url retries env st s h hret hs hE
  rw [if_pos (by simp [hnil])] at hext
  simp only [process, hext]
  rw [if_neg (by simp)]

/-- C4 witness: the example of the spec, a `noscript`-wrapped qualifying iframe. -/
theorem c4_noscript_only_nomatch_witness :
    iframesOutsideNoscript noscriptOnlyPage = [] ∧
    process "u" 3 (fun _ _ => AttemptOutcome.ok noscriptOnlyPage)
        { session := some 0, nextId := 1, failed_urls := [], no_iframe_urls := [] } =
      (PageResult.NoMatch,
        { session := some 0, nextId := 1, failed_urls := [], no_iframe_urls := ["u"] },
        [(0, AttemptOutcome.ok noscriptOnlyPage)]) :=
  ⟨rfl, c4_noscript_only_nomatch "u" 3 _ _ 0 noscriptOnlyPage (by decide) rfl rfl rfl rfl⟩

/-- C5: a successful render with zero qualifying iframes returns `NoMatch`
immediately: the trace holds exactly one attempt, the URL is logged once
into `no_iframe_urls`, and `failed_urls` and the session are untouched (no
retry, no retry budget consumed). -/
theorem c5_clean_negative_no_retry (url : String) (retries : Nat)
    (env : Nat → Nat → AttemptOutcome) (st : ScraperState) (s : Nat) (h : Node)
    (hret : 0 < retries) (hs : st.session = some s) (hE : env 0 s = .ok h)
    (hempty : extractFrom url h = []) :
    process url retries env st =
      (PageResult.NoMatch, { st with no_iframe_urls := st.no_iframe_urls ++ [url] },
        [(s, AttemptOutcome.ok h)]) := by
  have hext := extract_first_ok url retries env st s h hret hs hE
  rw [if_pos (by simp [hempty])] at hext
  simp only [process, hext]
  rw [if_neg (by simp)]

/-- C5 witness: a page with no iframe at all. -/
theorem c5_clean_negative_no_retry_witness :
    process "u" 7 (fun _ _ => AttemptOutcome.ok (Node.elem "html" [] []))
        { session := some 4, nextId := 5, failed_urls := [], no_iframe_urls := [] } =
      (PageResult.NoMatch,
        { session := some 4, nextId := 5, failed_urls := [], no_iframe_urls := ["u"] },
        [(4, AttemptOutcome.ok (Node.elem "html" [] []))]) :=
  c5_clean_negative_no_retry "u" 7 _ _ 4 (Node.elem "html" [] []) (by decide) rfl rfl rfl

/-- C8: the qualifying-substring test is case-sensitive: the page whose only
iframe src differs from the qualifying substring solely in letter case
yields no record and a `NoMatch` outcome, while the identical page with the
exact-case src does yield a record. -/
theorem c8_case_sensitive (url : String) (retries : Nat)
    (env : Nat → Nat → AttemptOutcome) (st : ScraperState) (s : Nat)
    (hret : 0 < retries) (hs : st.session = some s)
    (hE : env 0 s = .ok caseVariantPage) :
    extractFrom url caseVariantPage = [] ∧
    extractFrom url exactCasePage ≠ [] ∧
    process url retries env st =
      (PageResult.NoMatch, { st with no_iframe_urls := st.no_iframe_urls ++ [url] },
        [(s, AttemptOutcome.ok caseVariantPage)]) := by
  have hnil : extractFrom url caseVariantPage = [] := by
    show buildRecords url [Node.elem "iframe" [("src", "https://Contact.Sigma-RH.com/x")] []] = []
    simp [buildRecords, lookupAttr,
      (by decide : strContains "https://Contact.Sigma-RH.com/x" qualifier = false)]
  refine ⟨hnil, ?_, ?_⟩
  · show buildRecords url [Node.elem "iframe" [("src", "https://contact.sigma-rh.com/x")] []] ≠ []
    simp [buildRecords, lookupAttr,
      (by decide : strContains "https://contact.sigma-rh.com/x" qualifier = true)]
  · have hext := extract_first_ok url retries env st s caseVariantPage hret hs hE
    rw [if_pos (by simp [hnil])] at hext
    simp only [process, hext]
    rw [if_neg (by simp)]

/-- C8 witness. -/
theorem c8_case_sensitive_witness :
    extractFrom "u" caseVariantPage = [] ∧
    extractFrom "u" exactCasePage ≠ [] ∧
    process "u" 3 (fun _ _ => AttemptOutcome.ok caseVariantPage)
        { session := some 0, nextId := 1, failed_urls := [], no_iframe_urls := [] } =
      (PageResult.NoMatch,
        { session := some 0, nextId := 1, failed_urls := [], no_iframe_urls := ["u"] },
        [(0, AttemptOutcome.ok caseVariantPage)]) :=
  c8_case_sensitive "u" 3 _ _ 0 (by decide) rfl rfl

/-- C1 counterexample: with a transport error on all three attempts, every
attempt fails with an error and the call returns the `Failed` outcome after
three attempts, yet nothing is appended to the failed bucket — refuting the
claim that every URL whose attempts all fail is appended to `failed_urls`. -/
theorem c1_failed_bucket_counterexample :
    (process "https://example.com/p" 3
        (fun _ _ => AttemptOutcome.requestError "connection refused")
        { session := some 0, nextId := 1, failed_urls := [], no_iframe_urls := [] }).1 =
      PageResult.Failed ∧
    (process "https://example.com/p" 3
        (fun _ _ => AttemptOutcome.requestError "connection refused")
        { session := some 0, nextId := 1, failed_urls := [], no_iframe_urls := [] }).2.2.length
      = 3 ∧
    (process "https://example.com/p" 3
        (fun _ _ => AttemptOutcome.requestError "connection refused")
        { session := some 0, nextId := 1, failed_urls := [], no_iframe_urls := [] }).2.1.failed_urls
      = [] :=
  ⟨rfl, rfl, rfl⟩

/-- C1 (amended): `process` always terminates with exactly one of the three
outcome variants and no escaping exception; when every attempt fails with an
error it returns `Failed` with one trace entry per attempt and no
`no_iframe_urls` entry, and the URL is appended to `failed_urls` exactly
when the error of the final attempt is a non-transport error whose message
matches neither session-invalid pattern (`failDelta`) — otherwise `Failed`
is returned without a failed-bucket entry. -/
theorem c1_all_fail_failed_outcome (url : String) (retries : Nat)
    (env : Nat → Nat → AttemptOutcome) (st : ScraperState)
    (henv : ∀ a sid, a < retries → (env a sid).isErr = true) :
    (process url retries env st).1 = PageResult.Failed ∧
    (process url retries env st).2.2.length = retries ∧
    (process url retries env st).2.1.no_iframe_urls = st.no_iframe_urls ∧
    (process url retries env st).2.1.failed_urls =
      st.failed_urls ++
        (if retries = 0 then []
         else failDelta url (process url retries env st).2.2.getLast?) := by
  obtain ⟨δ, h1, h2, h3, h4, h5⟩ :=
    extractLoop_allErr url retries env henv retries 0 st [] (Nat.zero_add retries)
  rcases hout : extract_contact_iframe url retries env st with ⟨res, st1, tr1⟩
  have hout2 : extractLoop url retries env retries 0 st [] = (res, st1, tr1) := hout
  rw [hout2] at h1 h2 h4 h5
  simp only at h1 h2 h4 h5
  rw [List.nil_append] at h2
  subst h1
  subst h2
  have hproc : process url retries env st = (PageResult.Failed, st1, tr1) := by
    simp [process, hout, h4]
  rw [hproc]
  exact ⟨rfl, h3, h4, h5⟩

/-- C1 witness: three non-transport errors with non-matching messages. -/
theorem c1_all_fail_failed_outcome_witness :
    (process "u" 3 (fun _ _ => AttemptOutcome.otherError "parse failure")
        { session := some 0, nextId := 1, failed_urls := [], no_iframe_urls := [] }).1 =
      PageResult.Failed ∧
    (process "u" 3 (fun _ _ => AttemptOutcome.otherError "parse failure")
        { session := some 0, nextId := 1, failed_urls := [], no_iframe_urls := [] }).2.2.length
      = 3 ∧
    (process "u" 3 (fun _ _ => AttemptOutcome.otherError "parse failure")
        { session := some 0, nextId := 1, failed_urls := [], no_iframe_urls := [] }).2.1.no_iframe_urls
      = [] ∧
    (process "u" 3 (fun _ _ => AttemptOutcome.otherError "parse failure")
        { session := some 0, nextId := 1, failed_urls := [], no_iframe_urls := [] }).2.1.failed_urls
      = [] ++
        (if 3 = 0 then []
         else failDelta "u"
           (process "u" 3 (fun _ _ => AttemptOutcome.otherError "parse failure")
             { session := some 0, nextId := 1, failed_urls := [],
               no_iframe_urls := [] }).2.2.getLast?) :=
  c1_all_fail_failed_outcome "u" 3 _ _ (fun _ _ _ => rfl)

/-- C2: with a budget of 3 and a transport error on every attempt, exactly 3
attempts occur and the outcome is `Failed`; with a transport error on
attempt 1 and a successful render with qualifying iframes on attempt 2,
exactly 2 attempts occur and the successful extraction is returned. -/
theorem c2_retry_budget_boundary :
    (∀ (url : String) (env : Nat → Nat → AttemptOutcome) (st : ScraperState),
      (∀ a sid, a < 3 → ∃ m, env a sid = AttemptOutcome.requestError m) →
      (process url 3 env st).1 = PageResult.Failed ∧
      (process url 3 env st).2.2.length = 3) ∧
    (∀ (url : String) (env : Nat → Nat → AttemptOutcome) (st : ScraperState)
        (s : Nat) (m : String) (h : Node),
      st.session = some s → env 0 s = AttemptOutcome.requestError m →
      env 1 s = AttemptOutcome.ok h → extractFrom url h ≠ [] →
      process url 3 env st =
        (PageResult.Matched (extractFrom url h), st,
          [(s, AttemptOutcome.requestError m), (s, AttemptOutcome.ok h)])) := by
  constructor
  · intro url env st henv
    have henv2 : ∀ a sid, a < 3 → (env a sid).isErr = true := by
      intro a sid ha
      obtain ⟨m, hm⟩ := henv a sid ha
      rw [hm]
      rfl
    obtain ⟨δ, h1, h2, h3, h4, h5⟩ :=
      extractLoop_allErr url 3 env henv2 3 0 st [] (Nat.zero_add 3)
    rcases hout : extract_contact_iframe url 3 env st with ⟨res, st1, tr1⟩
    have hout2 : extractLoop url 3 env 3 0 st [] = (res, st1, tr1) := hout
    rw [hout2] at h1 h2 h4
    simp only at h1 h2 h4
    rw [List.nil_append] at h2
    subst h1
    subst h2
    have hproc : process url 3 env st = (PageResult.Failed, st1, tr1) := by
      simp [process, hout, h4]
    rw [hproc]
    exact ⟨rfl, h3⟩
  · intro url env st s m h hs h0 h1 hne
    have hext : extract_contact_iframe url 3 env st =
        (some (extractFrom url h), st,
          [(s, AttemptOutcome.requestError m), (s, AttemptOutcome.ok h)]) := by
      unfold extract_contact_iframe
      simp only [extractLoop, hs, reduceCtorEq, if_false, ite_false, Option.getD_some, h0, h1]
      rw [if_neg (by simp [List.isEmpty_iff, hne])]
      simp [hs]
    simp only [process, hext]

/-- C2 witness: a scripted all-transport-error run and a scripted
fail-then-succeed run. -/
theorem c2_retry_budget_boundary_witness :
    ((process "u" 3 (fun _ _ => AttemptOutcome.requestError "timeout")
        { session := some 0, nextId := 1, failed_urls := [], no_iframe_urls := [] }).1 =
      PageResult.Failed ∧
     (process "u" 3 (fun _ _ => AttemptOutcome.requestError "timeout")
        { session := some 0, nextId := 1, failed_urls := [], no_iframe_urls := [] }).2.2.length
      = 3) ∧
    process "u" 3
        (fun a _ => if a = 0 then AttemptOutcome.requestError "timeout"
          else AttemptOutcome.ok exactCasePage)
        { session := some 0, nextId := 1, failed_urls := [], no_iframe_urls := [] } =
      (PageResult.Matched (extractFrom "u" exactCasePage),
        { session := some 0, nextId := 1, failed_urls := [], no_iframe_urls := [] },
        [(0, AttemptOutcome.requestError "timeout"), (0, AttemptOutcome.ok exactCasePage)]) :=
  ⟨c2_retry_budget_boundary.1 "u" _ _ (fun _ _ _ => ⟨"timeout", rfl⟩),
   c2_retry_budget_boundary.2 "u" _ _ 0 "timeout" exactCasePage rfl rfl rfl (by decide)⟩

/-- C6: with an error on attempt 1 that keeps the session and a
session-invalid error on attempt 2, `create_session` runs before attempt 3
begins: attempts 1 and 2 use the old handle, attempt 3 uses the freshly
issued handle `st.nextId`, which differs from the old one, and the handle
counter has moved past `st.nextId` when the call returns (close failures
are swallowed inside `create_session` and never block recreation). -/
theorem c6_session_recreated_before_next_attempt (url : String)
    (env : Nat → Nat → AttemptOutcome) (st : ScraperState) (s : Nat) (m0 m1 : String)
    (hs : st.session = some s) (hfresh : s < st.nextId)
    (h0 : env 0 s = AttemptOutcome.requestError m0)
    (h1 : env 1 s = AttemptOutcome.otherError m1)
    (hbad : sessionBad m1 = true) :
    (extract_contact_iframe url 3 env st).2.2 =
      [(s, AttemptOutcome.requestError m0), (s, AttemptOutcome.otherError m1),
        (st.nextId, env 2 st.nextId)] ∧
    st.nextId ≠ s ∧
    st.nextId < (extract_contact_iframe url 3 env st).2.1.nextId := by
  have hne : st.nextId ≠ s := by omega
  refine ⟨?_, hne, ?_⟩
  · unfold extract_contact_iframe
    simp only [extractLoop, hs, reduceCtorEq, if_false, ite_false, Option.getD_some,
      h0, h1, hbad, if_true, ite_true, create_session_session]
    cases hE2 : env 2 st.nextId with
    | ok h =>
      simp only [hE2]
      split <;> simp
    | requestError m =>
      simp only [hE2, extractLoop]
      simp
    | otherError m =>
      simp only [hE2, extractLoop]
      simp
  · unfold extract_contact_iframe
    simp only [extractLoop, hs, reduceCtorEq, if_false, ite_false, Option.getD_some,
      h0, h1, hbad, if_true, ite_true, create_session_session]
    cases hE2 : env 2 st.nextId with
    | ok h =>
      simp only [hE2]
      split <;> simp [create_session]
    | requestError m =>
      simp only [hE2, extractLoop]
      simp [create_session]
    | otherError m =>
      simp only [hE2, extractLoop]
      split
      · simp only [create_session_nextId]
        omega
      · simp [create_session]

/-- C6 witness: transport error, then a session-invalid error, then success
on the recreated session. -/
theorem c6_session_recreated_before_next_attempt_witness :
    (extract_contact_iframe "u" 3
        (fun a _ => if a = 0 then AttemptOutcome.requestError "timeout"
          else if a = 1 then AttemptOutcome.otherError "Session is closed"
          else AttemptOutcome.ok exactCasePage)
        { session := some 0, nextId := 1, failed_urls := [], no_iframe_urls := [] }).2.2 =
      [(0, AttemptOutcome.requestError "timeout"),
        (0, AttemptOutcome.otherError "Session is closed"),
        (1, (fun (a _ : Nat) => if a = 0 then AttemptOutcome.requestError "timeout"
          else if a = 1 then AttemptOutcome.otherError "Session is closed"
          else AttemptOutcome.ok exactCasePage) 2 1)] ∧
    (1 : Nat) ≠ 0 ∧
    1 < (extract_contact_iframe "u" 3
        (fun a _ => if a = 0 then AttemptOutcome.requestError "timeout"
          else if a = 1 then AttemptOutcome.otherError "Session is closed"
          else AttemptOutcome.ok exactCasePage)
        { session := some 0, nextId := 1, failed_urls := [], no_iframe_urls := [] }).2.1.nextId :=
  c6_session_recreated_before_next_attempt "u" _ _ 0 "timeout" "Session is closed"
    rfl (by decide) rfl rfl (by decide)

/-- C9: one `extract_contact_iframe` call appends the URL to at most one of
the two accumulator lists, at most once, and never to both; a call that
returns extracted records (the `Matched` outcome) appends to neither. -/
theorem c9_at_most_one_bucket_entry (url : String) (retries : Nat)
    (env : Nat → Nat → AttemptOutcome) (st : ScraperState) :
    (((extract_contact_iframe url retries env st).2.1.no_iframe_urls = st.no_iframe_urls ∧
       (extract_contact_iframe url retries env st).2.1.failed_urls = st.failed_urls) ∨
     ((extract_contact_iframe url retries env st).2.1.no_iframe_urls
         = st.no_iframe_urls ++ [url] ∧
       (extract_contact_iframe url retries env st).2.1.failed_urls = st.failed_urls ∧
       (extract_contact_iframe url retries env st).1 = none) ∨
     ((extract_contact_iframe url retries env st).2.1.no_iframe_urls = st.no_iframe_urls ∧
       (extract_contact_iframe url retries env st).2.1.failed_urls
         = st.failed_urls ++ [url] ∧
       (extract_contact_iframe url retries env st).1 = none)) ∧
    (∀ l, (extract_contact_iframe url retries env st).1 = some l →
      (extract_contact_iframe url retries env st).2.1.no_iframe_urls = st.no_iframe_urls ∧
      (extract_contact_iframe url retries env st).2.1.failed_urls = st.failed_urls) := by
  rcases hout : extract_contact_iframe url retries env st with ⟨res, st1, tr1⟩
  have hout2 : extractLoop url retries env retries 0 st [] = (res, st1, tr1) := hout
  have tri := extractLoop_buckets url retries env retries 0 st [] res st1 tr1
    (by omega) hout2
  constructor
  · exact tri
  · intro l hl
    simp only at hl
    rcases tri with h | h | h
    · exact ⟨h.1, h.2⟩
    · rw [hl] at h
      exact absurd h.2.2 (by simp)
    · rw [hl] at h
      exact absurd h.2.2 (by simp)

/-- C9 witness: a `Matched` call leaves both buckets untouched. -/
theorem c9_at_most_one_bucket_entry_witness :
    (extract_contact_iframe "u" 3 (fun _ _ => AttemptOutcome.ok exactCasePage)
        { session := some 0, nextId := 1, failed_urls := [], no_iframe_urls := [] }).2.1.no_iframe_urls
      = [] ∧
    (extract_contact_iframe "u" 3 (fun _ _ => AttemptOutcome.ok exactCasePage)
        { session := some 0, nextId := 1, failed_urls := [], no_iframe_urls := [] }).2.1.failed_urls
      = [] :=
  (c9_at_most_one_bucket_entry "u" 3 (fun _ _ => AttemptOutcome.ok exactCasePage)
      { session := some 0, nextId := 1, failed_urls := [], no_iframe_urls := [] }).2
    (extractFrom "u" exactCasePage) rfl

/-- C10: an attempt failing with a transport error, or with any other error
whose message matches neither session-invalid pattern, leaves the session
handle unchanged, and no new handle is ever created (the handle counter is
untouched) as long as a session exists at the start. -/
theorem c10_session_unchanged_without_fault (url : String) (retries : Nat)
    (env : Nat → Nat → AttemptOutcome) (st : ScraperState) (s : Nat)
    (hs : st.session = some s)
    (henv : ∀ a sid m, env a sid = AttemptOutcome.otherError m → sessionBad m = false) :
    (extract_contact_iframe url retries env st).2.1.session = some s ∧
    (extract_contact_iframe url retries env st).2.1.nextId = st.nextId :=
  extractLoop_session_frame url retries env henv retries 0 st [] s hs

/-- C10 witness: transport errors on every attempt keep the session. -/
theorem c10_session_unchanged_without_fault_witness :
    (extract_contact_iframe "u" 3 (fun _ _ => AttemptOutcome.requestError "timeout")
        { session := some 5, nextId := 6, failed_urls := [], no_iframe_urls := [] }).2.1.session
      = some 5 ∧
    (extract_contact_iframe "u" 3 (fun _ _ => AttemptOutcome.requestError "timeout")
        { session := some 5, nextId := 6, failed_urls := [], no_iframe_urls := [] }).2.1.nextId
      = 6 :=
  c10_session_unchanged_without_fault "u" 3 _ _ 5 rfl (fun a sid m h => by cases h)

theorem runLoop_spec (env : String → Nat → Nat → AttemptOutcome) :
    ∀ (urls : List String) (st : ScraperState) (rs : List IframeRecord)
      (tr : List (String × Option (List IframeRecord))),
      ∃ (fs ns : List String) (ms : List (String × List IframeRecord))
        (rets : List (String × Option (List IframeRecord))),
        fs.Sublist urls ∧ ns.Sublist urls ∧ (ms.map Prod.fst).Sublist urls ∧
        (runLoop env urls st rs tr).1.failed_urls = st.failed_urls ++ fs ∧
        (runLoop env urls st rs tr).1.no_iframe_urls = st.no_iframe_urls ++ ns ∧
        (runLoop env urls st rs tr).2.1 = rs ++ (ms.map Prod.snd).flatten ∧
        (∀ p ∈ ms, ∀ r ∈ p.2, r.page_url = p.1) ∧
        (runLoop env urls st rs tr).2.2 = tr ++ rets ∧
        rets.map Prod.fst = urls := by
  intro urls
  induction urls with
  | nil =>
    intro st rs tr
    refine ⟨[], [], [], [], ?_, ?_, ?_, ?_, ?_, ?_, ?_, ?_, ?_⟩ <;> simp [runLoop]
  | cons url rest ih =>
    intro st rs tr
    rcases hext : extract_contact_iframe url 3 (env url) st with ⟨ret, st1, trx⟩
    have hrun : runLoop env (url :: rest) st rs tr =
        runLoop env rest st1 (match ret with | some l => rs ++ l | none => rs)
          (tr ++ [(url, ret)]) := by
      simp only [runLoop, hext]
      cases ret <;> rfl
    obtain ⟨fs', ns', ms', rets', hfs, hns, hms, e1, e2, e3, hpg, e4, e5⟩ :=
      ih st1 (match ret with | some l => rs ++ l | none => rs) (tr ++ [(url, ret)])
    have hout2 : extractLoop url 3 (env url) 3 0 st [] = (ret, st1, trx) := hext
    have tri := extractLoop_buckets url 3 (env url) 3 0 st [] ret st1 trx (by omega) hout2
    rw [hrun]
    cases ret with
    | some l =>
      have hcase : st1.no_iframe_urls = st.no_iframe_urls ∧ st1.failed_urls = st.failed_urls := by
        rcases tri with h | h | h
        · exact h
        · exact absurd h.2.2 (by simp)
        · exact absurd h.2.2 (by simp)
      have hl : ∀ r ∈ l, r.page_url = url :=
        extractLoop_matched_page url 3 (env url) 3 0 st [] l st1 trx hout2
      refine ⟨fs', ns', (url, l) :: ms', (url, some l) :: rets',
        hfs.cons _, hns.cons _, List.Sublist.cons₂ _ hms, ?_, ?_, ?_, ?_, ?_, ?_⟩
      · rw [e1, hcase.2]
      · rw [e2, hcase.1]
      · rw [e3]
        simp
      · intro p hp r hr
        rcases List.mem_cons.mp hp with h | h
        · subst h
          exact hl r hr
        · exact hpg p h r hr
      · rw [e4]
        simp
      · simp [e5]
    | none =>
      rcases tri with ⟨hn, hf⟩ | ⟨hn, hf, _⟩ | ⟨hn, hf, _⟩
      · refine ⟨fs', ns', ms', (url, none) :: rets',
          hfs.cons _, hns.cons _, hms.cons _, ?_, ?_, ?_, hpg, ?_, ?_⟩
        · rw [e1, hf]
        · rw [e2, hn]
        · exact e3
        · rw [e4]
          simp
        · simp [e5]
      · refine ⟨fs', url :: ns', ms', (url, none) :: rets',
          hfs.cons _, List.Sublist.cons₂ _ hns, hms.cons _, ?_, ?_, ?_, hpg, ?_, ?_⟩
        · rw [e1, hf]
        · rw [e2, hn]
          simp
        · exact e3
        · rw [e4]
          simp
        · simp [e5]
      · refine ⟨url :: fs', ns', ms', (url, none) :: rets',
          List.Sublist.cons₂ _ hfs, hns.cons _, hms.cons _, ?_, ?_, ?_, hpg, ?_, ?_⟩
        · rw [e1, hf]
          simp
        · rw [e2, hn]
        · exact e3
        · rw [e4]
          simp
        · simp [e5]

/-- C7: the orchestrator processes the URLs strictly in the given order (the
trace lists exactly the input URLs in order), and each outcome bucket grows
only by appending: the failed and no-match buckets each gain a subsequence
of the input order, and the matched results grow by per-URL blocks whose
page order is a subsequence of the input order, every record carrying the
URL of its own block. -/
theorem c7_sequential_order (urls : List String)
    (env : String → Nat → Nat → AttemptOutcome)
    (st : ScraperState) (rs : List IframeRecord) :
    (run_sequentially urls env st rs).2.2.map Prod.fst = urls ∧
    (∃ fs, fs.Sublist urls ∧
      (run_sequentially urls env st rs).1.failed_urls = st.failed_urls ++ fs) ∧
    (∃ ns, ns.Sublist urls ∧
      (run_sequentially urls env st rs).1.no_iframe_urls = st.no_iframe_urls ++ ns) ∧
    (∃ ms : List (String × List IframeRecord), (ms.map Prod.fst).Sublist urls ∧
      (run_sequentially urls env st rs).2.1 = rs ++ (ms.map Prod.snd).flatten ∧
      ∀ p ∈ ms, ∀ r ∈ p.2, r.page_url = p.1) := by
  obtain ⟨fs, ns, ms, rets, hfs, hns, hms, e1, e2, e3, hpg, e4, e5⟩ :=
    runLoop_spec env urls (create_session st).2 rs []
  unfold run_sequentially
  refine ⟨?_, ⟨fs, hfs, ?_⟩, ⟨ns, hns, ?_⟩, ⟨ms, hms, e3, hpg⟩⟩
  · rw [e4]
    simpa using e5
  · rw [e1]
    simp
  · rw [e2]
    simp

/-- C7 witness: a two-URL run, one matched and one failed. -/
theorem c7_sequential_order_witness :
    (run_sequentially ["a", "b"]
        (fun u _ _ => if u = "a" then AttemptOutcome.ok exactCasePage
          else AttemptOutcome.requestError "timeout")
        { session := none, nextId := 0, failed_urls := [], no_iframe_urls := [] }
        []).2.2.map Prod.fst = ["a", "b"] ∧
    (∃ fs, fs.Sublist ["a", "b"] ∧
      (run_sequentially ["a", "b"]
          (fun u _ _ => if u = "a" then AttemptOutcome.ok exactCasePage
            else AttemptOutcome.requestError "timeout")
          { session := none, nextId := 0, failed_urls := [], no_iframe_urls := [] }
          []).1.failed_urls = [] ++ fs) ∧
    (∃ ns, ns.Sublist ["a", "b"] ∧
      (run_sequentially ["a", "b"]
          (fun u _ _ => if u = "a" then AttemptOutcome.ok exactCasePage
            else AttemptOutcome.requestError "timeout")
          { session := none, nextId := 0, failed_urls := [], no_iframe_urls := [] }
          []).1.no_iframe_urls = [] ++ ns) ∧
    (∃ ms : List (String × List IframeRecord), (ms.map Prod.fst).Sublist ["a", "b"] ∧
      (run_sequentially ["a", "b"]
          (fun u _ _ => if u = "a" then AttemptOutcome.ok exactCasePage
            else AttemptOutcome.requestError "timeout")
          { session := none, nextId := 0, failed_urls := [], no_iframe_urls := [] }
          []).2.1 = [] ++ (ms.map Prod.snd).flatten ∧
      ∀ p ∈ ms, ∀ r ∈ p.2, r.page_url = p.1) :=
  c7_sequential_order ["a", "b"] _ _ []
